import Mathlib

/-!
Verification of the native window-overlay module (src/native/window-overlay.cc).

The module exposes two N-API entry points:

* `setWindowCollectionBehavior(windowId, behavior)` — resolves the window
  whose platform-assigned `windowNumber` equals `windowId` (first by a linear
  scan of `[[NSApplication sharedApplication] windows]`, then by the direct
  `windowWithWindowNumber:` registry lookup) and, if found, replaces its
  `collectionBehavior` flags with `behavior`; returns a boolean, throwing a
  `TypeError` when given fewer than two arguments.
* `getNSWindowFromHandle(buffer)` — reads a pointer-sized word from the start
  of a raw byte buffer, interprets it as an `NSWindow*`, and returns that
  window's `windowNumber` (or null for an absent argument / null pointer).

We embed the module shallowly: the AppKit window-server state becomes an
explicit `AppState` value threaded through each call, JavaScript numbers
become `Int` with the ECMAScript `ToUint32` truncation that
`Napi::Number::Uint32Value()` performs, and the raw handle buffer becomes a
word-granular list of object pointers.  Dereferencing memory the buffer does
not hold (an empty buffer, or a pointer to no live object) is modelled as an
explicit `fault` outcome, since the C++ performs an unchecked read there.
-/

/-- An AppKit window object, restricted to the state this module touches:
its platform-assigned window number and its collection-behavior bitmask
(an `NSWindowCollectionBehavior`, stored here as the applied flag value). -/
structure NSWindow where
  windowNumber : Nat
  collectionBehavior : Nat
  deriving Repr, DecidableEq

/-- The window-server state visible to the module: the application's current
top-level windows in platform enumeration order
(`[[NSApplication sharedApplication] windows]`), together with the platform's
direct registry `windowWithWindowNumber:`, modelled as a finite table from a
window number to the index (in `windows`) of the window object the registry
returns for that number. -/
structure AppState where
  windows : List NSWindow
  registry : List (Nat × Nat)
  deriving Repr, DecidableEq

/-- `[[NSApplication sharedApplication] windowWithWindowNumber:n]`:
the platform registry's direct lookup, returning the index of the window
object it yields for number `n`, if any. -/
def registryLookup (st : AppState) (n : Nat) : Option Nat :=
  (st.registry.find? (fun p => p.1 == n)).map (fun p => p.2)

/-- Well-formedness of the platform registry: `windowWithWindowNumber:n`
only ever returns a live window whose `windowNumber` is `n`.  This is the
platform API's contract, not something the module checks. -/
def RegistryWF (st : AppState) : Prop :=
  ∀ n i, registryLookup st n = some i →
    ∃ w, st.windows[i]? = some w ∧ w.windowNumber = n

/-- The `for (NSWindow* window in windows)` loop of
`SetWindowCollectionBehavior`, as the index of the first window whose
`windowNumber` equals `id` (the loop returns on the first match). -/
def scanWindows : List NSWindow → Nat → Option Nat
  | [], _ => none
  | w :: ws, id =>
    if w.windowNumber == id then some 0
    else (scanWindows ws id).map (fun i => i + 1)

/-- The module's window resolution: the linear scan of the application's
windows first, and only if it finds nothing, the direct registry lookup
(`windowWithWindowNumber:`). -/
def resolveWindow (st : AppState) (id : Nat) : Option Nat :=
  match scanWindows st.windows id with
  | some i => some i
  | none => registryLookup st id

/-- `[window setCollectionBehavior:behavior]` on the window at index `i`:
the flags of that window are replaced by `mask`; every other window is left
untouched. -/
def setBehaviorAt : List NSWindow → Nat → Nat → List NSWindow
  | [], _, _ => []
  | w :: ws, 0, mask => { w with collectionBehavior := mask } :: ws
  | w :: ws, i + 1, mask => w :: setBehaviorAt ws i mask

/-- ECMAScript `ToUint32`, which `Napi::Number::Uint32Value()` applies to the
JavaScript argument: reduction modulo `2^32` to a non-negative value. -/
def toUint32 (x : Int) : Nat := (x % (2 : Int) ^ 32).toNat

/-- An exception thrown back to JavaScript.  The module throws
`Napi::TypeError` (the spec's `ArgumentError`) when given too few
arguments. -/
inductive NapiError where
  | TypeError (msg : String)
  deriving Repr, DecidableEq

/-- `SetWindowCollectionBehavior`: with fewer than two arguments it throws;
otherwise it truncates both arguments to `uint32`, resolves the window id
(scan, then registry fallback), and on success replaces that window's
collection behavior with the mask and returns `true`; an unresolved id
returns `false`.  The pair carries the JavaScript-visible outcome and the
post-call window-server state. -/
def setWindowCollectionBehavior (st : AppState) (args : List Int) :
    Except NapiError Bool × AppState :=
  if args.length < 2 then
    (.error (.TypeError "Expected 2 arguments: windowId and behavior"), st)
  else
    let windowId := toUint32 (args.getD 0 0)
    let behavior := toUint32 (args.getD 1 0)
    match resolveWindow st windowId with
    | some i => (.ok true, { st with windows := setBehaviorAt st.windows i behavior })
    | none => (.ok false, st)

/-- A pointer-sized word held in a raw handle buffer: either the null pointer
or a pointer to the live window object at index `i` of the application's
window table. -/
inductive ObjPtr where
  | null
  | ref (i : Nat)
  deriving Repr, DecidableEq

/-- Outcome of `GetNSWindowFromHandle` as seen from JavaScript: a returned
value (the window number, or null), or a fault — the unchecked C++ read
`*((NSWindow**)buffer.Data())` touching memory the buffer does not hold. -/
inductive DecodeResult where
  | value (v : Option Nat)
  | fault
  deriving Repr, DecidableEq

/-- `GetNSWindowFromHandle`: with no argument it returns null; otherwise it
reads the first pointer-sized word of the buffer (faulting if the buffer is
empty, since the C++ dereferences `buffer.Data()` unconditionally), returns
null for a null embedded pointer, and otherwise returns the referenced
window's `windowNumber` (faulting on a dangling reference).  The pair carries
the outcome and the post-call window-server state. -/
def getNSWindowFromHandle (st : AppState) (args : List (List ObjPtr)) :
    DecodeResult × AppState :=
  if args.length < 1 then (.value none, st)
  else
    match (args.getD 0 []).head? with
    | none => (.fault, st)
    | some .null => (.value none, st)
    | some (.ref i) =>
      match st.windows[i]? with
      | some w => (.value (some w.windowNumber), st)
      | none => (.fault, st)

/-- The concrete scenario of the spec's test properties: the application has
two open windows, window A numbered 42 (current flags 3) and window B
numbered 7 (current flags 5); the platform registry table is empty, so all
resolution goes through the linear scan. -/
def stAB : AppState := ⟨[⟨42, 3⟩, ⟨7, 5⟩], []⟩

/-! ### Arithmetic of the `Uint32Value` truncation -/

theorem two_pow_32_int : (2 : Int) ^ 32 = 4294967296 := by norm_num

theorem toUint32_ofNat (n : Nat) (h : n < 2 ^ 32) : toUint32 (n : Int) = n := by
  unfold toUint32
  rw [two_pow_32_int]
  omega

theorem toUint32_cast (b : Int) : (toUint32 b : Int) = b % 2 ^ 32 := by
  unfold toUint32
  exact Int.toNat_of_nonneg (Int.emod_nonneg b (by norm_num))

/-! ### The linear scan -/

theorem scanWindows_some (ws : List NSWindow) (id : Nat) :
    ∀ i, scanWindows ws id = some i →
      (∃ w, ws[i]? = some w ∧ w.windowNumber = id) ∧
      ∀ j, j < i → ∀ w : NSWindow, ws[j]? = some w → w.windowNumber ≠ id := by
  induction ws with
  | nil => intro i h; simp [scanWindows] at h
  | cons w ws ih =>
    intro i h
    unfold scanWindows at h
    by_cases hw : w.windowNumber = id
    · simp [hw] at h
      subst h
      exact ⟨⟨w, by simp, hw⟩, fun j hj => by omega⟩
    · simp [hw] at h
      obtain ⟨i', hi', rfl⟩ := h
      obtain ⟨⟨w', hw', hnum⟩, hfirst⟩ := ih i' hi'
      refine ⟨⟨w', by simpa using hw', hnum⟩, ?_⟩
      intro j hj wj hwj
      cases j with
      | zero => simp at hwj; subst hwj; exact hw
      | succ j => exact hfirst j (by omega) wj (by simpa using hwj)

theorem scanWindows_none (ws : List NSWindow) (id : Nat)
    (h : scanWindows ws id = none) :
    ∀ (j : Nat) (w : NSWindow), ws[j]? = some w → w.windowNumber ≠ id := by
  induction ws with
  | nil => intro j w hw; simp at hw
  | cons w ws ih =>
    intro j wj hwj
    unfold scanWindows at h
    by_cases hw : w.windowNumber = id
    · simp [hw] at h
    · simp [hw] at h
      cases j with
      | zero => simp at hwj; subst hwj; exact hw
      | succ j => exact ih h j wj (by simpa using hwj)

/-! ### The mutation -/

theorem setBehaviorAt_getElem_self (ws : List NSWindow) :
    ∀ (i mask : Nat) (w : NSWindow), ws[i]? = some w →
      (setBehaviorAt ws i mask)[i]? = some { w with collectionBehavior := mask } := by
  induction ws with
  | nil => intro i mask w hw; simp at hw
  | cons w ws ih =>
    intro i mask wi hw
    cases i with
    | zero => simp at hw; subst hw; simp [setBehaviorAt]
    | succ i => simp [setBehaviorAt] at hw ⊢; exact ih i mask wi hw

theorem setBehaviorAt_getElem_other (ws : List NSWindow) :
    ∀ (i mask j : Nat), j ≠ i →
      (setBehaviorAt ws i mask)[j]? = ws[j]? := by
  induction ws with
  | nil => intro i mask j _; cases i <;> simp [setBehaviorAt]
  | cons w ws ih =>
    intro i mask j hj
    cases i with
    | zero =>
      cases j with
      | zero => omega
      | succ j => simp [setBehaviorAt]
    | succ i =>
      cases j with
      | zero => simp [setBehaviorAt]
      | succ j => simp [setBehaviorAt]; exact ih i mask j (by omega)

/-! ### The resolver -/

theorem resolveWindow_spec (st : AppState) (id i : Nat)
    (hwf : RegistryWF st) (h : resolveWindow st id = some i) :
    ∃ w, st.windows[i]? = some w ∧ w.windowNumber = id := by
  unfold resolveWindow at h
  cases hscan : scanWindows st.windows id with
  | some i' =>
    rw [hscan] at h
    obtain rfl := Option.some.inj h
    exact (scanWindows_some st.windows id _ hscan).1
  | none =>
    rw [hscan] at h
    exact hwf id i h

theorem setWindowCollectionBehavior_two (st : AppState) (a b : Int) :
    setWindowCollectionBehavior st [a, b] =
      match resolveWindow st (toUint32 a) with
      | some i =>
          (.ok true, { st with windows := setBehaviorAt st.windows i (toUint32 b) })
      | none => (.ok false, st) := by
  cases h : resolveWindow st (toUint32 a) <;>
    simp [setWindowCollectionBehavior, h]

theorem scanWindows_getElem (ws : List NSWindow) :
    ∀ (i : Nat) (w : NSWindow), ws[i]? = some w →
      ws.Pairwise (fun a b => a.windowNumber ≠ b.windowNumber) →
      scanWindows ws w.windowNumber = some i := by
  induction ws with
  | nil => intro i w hw _; simp at hw
  | cons v ws ih =>
    intro i w hw hp
    rw [List.pairwise_cons] at hp
    obtain ⟨hv, hp⟩ := hp
    cases i with
    | zero =>
      simp at hw; subst hw
      simp [scanWindows]
    | succ i =>
      simp at hw
      have hne : v.windowNumber ≠ w.windowNumber :=
        hv w (List.getElem?_mem hw)
      unfold scanWindows
      rw [if_neg (by simpa using hne)]
      rw [ih i w hw hp]
      rfl

theorem setWCB_two_some (st : AppState) (a b : Int) (i : Nat)
    (hres : resolveWindow st (toUint32 a) = some i) :
    setWindowCollectionBehavior st [a, b] =
      (.ok true, { st with windows := setBehaviorAt st.windows i (toUint32 b) }) := by
  rw [setWindowCollectionBehavior_two, hres]

theorem setWCB_two_none (st : AppState) (a b : Int)
    (hres : resolveWindow st (toUint32 a) = none) :
    setWindowCollectionBehavior st [a, b] = (.ok false, st) := by
  rw [setWindowCollectionBehavior_two, hres]

theorem setWCB_resolved_eq (st : AppState) (id mask i : Nat)
    (hid : id < 2 ^ 32) (hmask : mask < 2 ^ 32)
    (hres : resolveWindow st id = some i) :
    setWindowCollectionBehavior st [(id : Int), (mask : Int)] =
      (.ok true, { st with windows := setBehaviorAt st.windows i mask }) := by
  have h := setWCB_two_some st (id : Int) (mask : Int) i
    (by rw [toUint32_ofNat id hid]; exact hres)
  rw [toUint32_ofNat mask hmask] at h
  exact h

theorem registryWF_of_registry_nil (st : AppState) (h : st.registry = []) :
    RegistryWF st := by
  intro n i hl
  simp [registryLookup, h] at hl

/-! ### The claims -/

/-- C1: for every window id that resolves to a live application window (by
either strategy, under the platform registry's contract) and every mask —
both `uint32` values, as the external interface declares — the call
`setWindowCollectionBehavior(id, mask)` returns `true`, and afterwards the
resolved window's collection-behavior flags equal exactly `mask`: whatever
flags the window carried before are wholly replaced, not OR-merged. -/
theorem C1_set_behavior_replaces_flags (st : AppState) (id mask i : Nat)
    (hwf : RegistryWF st) (hid : id < 2 ^ 32) (hmask : mask < 2 ^ 32)
    (hres : resolveWindow st id = some i) :
    ∃ w : NSWindow, st.windows[i]? = some w ∧ w.windowNumber = id ∧
      (setWindowCollectionBehavior st [(id : Int), (mask : Int)]).1 = .ok true ∧
      (setWindowCollectionBehavior st [(id : Int), (mask : Int)]).2.windows[i]? =
        some { w with collectionBehavior := mask } := by
  obtain ⟨w, hw, hnum⟩ := resolveWindow_spec st id i hwf hres
  have key := setWCB_resolved_eq st id mask i hid hmask hres
  refine ⟨w, hw, hnum, ?_, ?_⟩
  · rw [key]
  · rw [key]
    exact setBehaviorAt_getElem_self st.windows i mask w hw

/-- Witness for C1: in the two-window scenario, setting window 42's behavior
to 18 succeeds and its flags become exactly 18 (they were 3 before). -/
theorem C1_witness :
    ∃ w : NSWindow, stAB.windows[0]? = some w ∧ w.windowNumber = 42 ∧
      (setWindowCollectionBehavior stAB [(42 : Int), (18 : Int)]).1 = .ok true ∧
      (setWindowCollectionBehavior stAB [(42 : Int), (18 : Int)]).2.windows[0]? =
        some { w with collectionBehavior := 18 } :=
  C1_set_behavior_replaces_flags stAB 42 18 0
    (registryWF_of_registry_nil stAB rfl) (by norm_num) (by norm_num) (by decide)

/-- C2: resolution tries the linear scan of the application's windows first
(returning the first index whose window number equals `id`, with no earlier
match), falls back to the direct registry lookup only when the scan finds
nothing, and when both fail `setWindowCollectionBehavior` returns `false`. -/
theorem C2_resolution_order (st : AppState) (id : Nat) :
    (∀ i, scanWindows st.windows id = some i →
        resolveWindow st id = some i ∧
        (∃ w : NSWindow, st.windows[i]? = some w ∧ w.windowNumber = id) ∧
        ∀ j, j < i → ∀ w : NSWindow, st.windows[j]? = some w →
          w.windowNumber ≠ id) ∧
    (scanWindows st.windows id = none →
        resolveWindow st id = registryLookup st id) ∧
    (∀ mask : Int, id < 2 ^ 32 → resolveWindow st id = none →
        setWindowCollectionBehavior st [(id : Int), mask] = (.ok false, st)) := by
  refine ⟨?_, ?_, ?_⟩
  · intro i h
    refine ⟨?_, (scanWindows_some st.windows id i h).1,
      (scanWindows_some st.windows id i h).2⟩
    unfold resolveWindow
    rw [h]
  · intro h
    unfold resolveWindow
    rw [h]
  · intro mask hid h
    exact setWCB_two_none st (id : Int) mask (by rw [toUint32_ofNat id hid]; exact h)

/-- Witness for C2: id 7 is found by the scan at index 1 of the two-window
scenario, and id 99 resolves by neither strategy, so the call returns
`false`. -/
theorem C2_witness :
    resolveWindow stAB 7 = some 1 ∧
    setWindowCollectionBehavior stAB [(99 : Int), (5 : Int)] = (.ok false, stAB) :=
  ⟨((C2_resolution_order stAB 7).1 1 (by decide)).1,
   (C2_resolution_order stAB 99).2.2 5 (by norm_num) (by decide)⟩

/-- C3: when the (truncated) id resolves to no window, the call returns
`false` with no exception and the window-server state — in particular every
window's collection-behavior flags — is unchanged. -/
theorem C3_unresolved_returns_false (st : AppState) (a mask : Int)
    (h : resolveWindow st (toUint32 a) = none) :
    setWindowCollectionBehavior st [a, mask] = (.ok false, st) :=
  setWCB_two_none st a mask h

/-- Witness for C3: id 99 names no window of the two-window scenario; the
call returns `false` and leaves the state intact. -/
theorem C3_witness :
    setWindowCollectionBehavior stAB [(99 : Int), (18 : Int)] = (.ok false, stAB) :=
  C3_unresolved_returns_false stAB 99 18 (by decide)

/-- C4: a call with fewer than two arguments throws the `TypeError` (the
spec's `ArgumentError`) and mutates nothing: the window-server state is
returned untouched, no window having been looked up or modified. -/
theorem C4_too_few_arguments_throw (st : AppState) (args : List Int)
    (h : args.length < 2) :
    setWindowCollectionBehavior st args =
      (.error (.TypeError "Expected 2 arguments: windowId and behavior"), st) := by
  unfold setWindowCollectionBehavior
  rw [if_pos h]

/-- Witness for C4: the zero-argument call throws and leaves the two-window
scenario unchanged. -/
theorem C4_witness :
    setWindowCollectionBehavior stAB [] =
      (.error (.TypeError "Expected 2 arguments: windowId and behavior"), stAB) :=
  C4_too_few_arguments_throw stAB [] (by decide)

/-- C5 counterexample: the claim says an empty buffer decodes to null, but
the code dereferences `buffer.Data()` without checking the buffer's length,
so on an empty buffer the read faults (undefined behavior) instead of
returning null. -/
theorem C5_counterexample_empty_buffer :
    (getNSWindowFromHandle stAB [[]]).1 = .fault ∧
    (getNSWindowFromHandle stAB [[]]).1 ≠ .value none := by decide

/-- C5 (amended): `getNSWindowFromHandle` returns null for an absent
argument and for a buffer whose embedded pointer is null, in both cases
without raising an exception; but an empty buffer is not checked — the code
unconditionally dereferences the buffer's data pointer, an invalid read, so
totality fails there. -/
theorem C5_decode_null_cases (st : AppState) (buf : List ObjPtr) :
    getNSWindowFromHandle st [] = (.value none, st) ∧
    (buf.head? = some .null → getNSWindowFromHandle st [buf] = (.value none, st)) ∧
    (buf = [] → (getNSWindowFromHandle st [buf]).1 = .fault) := by
  refine ⟨rfl, ?_, ?_⟩
  · intro h
    simp [getNSWindowFromHandle, h]
  · intro h
    subst h
    rfl

/-- Witness for C5 (amended), on the two-window scenario: no argument gives
null, a buffer holding the null pointer gives null, and the empty buffer
faults. -/
theorem C5_witness :
    getNSWindowFromHandle stAB [] = (.value none, stAB) ∧
    getNSWindowFromHandle stAB [[ObjPtr.null]] = (.value none, stAB) ∧
    (getNSWindowFromHandle stAB [[]]).1 = .fault :=
  ⟨(C5_decode_null_cases stAB []).1,
   (C5_decode_null_cases stAB [ObjPtr.null]).2.1 rfl,
   (C5_decode_null_cases stAB []).2.2 rfl⟩

/-- C6: for a live application window `w` at index `i` (window numbers
unique, as the platform guarantees, and in `uint32` range), decoding a
buffer that embeds a pointer to `w` returns `w`'s window number, and feeding
that number back to `setWindowCollectionBehavior` resolves to the same
window: the call succeeds and mutates exactly index `i`. -/
theorem C6_decode_resolve_roundtrip (st : AppState) (i : Nat) (w : NSWindow)
    (hw : st.windows[i]? = some w)
    (huniq : st.windows.Pairwise (fun a b => a.windowNumber ≠ b.windowNumber))
    (hnum : w.windowNumber < 2 ^ 32) :
    (getNSWindowFromHandle st [[ObjPtr.ref i]]).1 = .value (some w.windowNumber) ∧
    resolveWindow st w.windowNumber = some i ∧
    ∀ mask : Int, setWindowCollectionBehavior st [(w.windowNumber : Int), mask] =
      (.ok true, { st with windows := setBehaviorAt st.windows i (toUint32 mask) }) := by
  have hscan := scanWindows_getElem st.windows i w hw huniq
  have hres : resolveWindow st w.windowNumber = some i := by
    unfold resolveWindow
    rw [hscan]
  refine ⟨?_, hres, ?_⟩
  · simp [getNSWindowFromHandle, hw]
  · intro mask
    exact setWCB_two_some st (w.windowNumber : Int) mask i
      (by rw [toUint32_ofNat _ hnum]; exact hres)

/-- Witness for C6: a buffer embedding a pointer to window B (number 7, index
1 of the two-window scenario) decodes to 7, and 7 resolves back to index
1. -/
theorem C6_witness :
    (getNSWindowFromHandle stAB [[ObjPtr.ref 1]]).1 = .value (some 7) ∧
    resolveWindow stAB 7 = some 1 :=
  ⟨(C6_decode_resolve_roundtrip stAB 1 ⟨7, 5⟩ (by decide) (by decide)
      (by norm_num)).1,
   (C6_decode_resolve_roundtrip stAB 1 ⟨7, 5⟩ (by decide) (by decide)
      (by norm_num)).2.1⟩

/-- C7: a successful `setWindowCollectionBehavior(id, mask)` (with `uint32`
arguments, under the platform registry's contract) mutates only the one
window whose number equals `id`: the window at the resolved index gets flags
exactly `mask`, and every other index of the window table is unchanged. -/
theorem C7_frame_only_target_window (st : AppState) (id mask i : Nat)
    (hwf : RegistryWF st) (hid : id < 2 ^ 32) (hmask : mask < 2 ^ 32)
    (hres : resolveWindow st id = some i) :
    ∃ w : NSWindow, st.windows[i]? = some w ∧ w.windowNumber = id ∧
      (setWindowCollectionBehavior st [(id : Int), (mask : Int)]).2.windows[i]? =
        some { w with collectionBehavior := mask } ∧
      ∀ j, j ≠ i →
        (setWindowCollectionBehavior st [(id : Int), (mask : Int)]).2.windows[j]? =
          st.windows[j]? := by
  obtain ⟨w, hw, hnum⟩ := resolveWindow_spec st id i hwf hres
  have key := setWCB_resolved_eq st id mask i hid hmask hres
  refine ⟨w, hw, hnum, ?_, ?_⟩
  · rw [key]
    exact setBehaviorAt_getElem_self st.windows i mask w hw
  · intro j hj
    rw [key]
    exact setBehaviorAt_getElem_other st.windows i mask j hj

/-- Witness for C7: the spec's scenario — windows 42 and 7 open,
`setWindowCollectionBehavior(42, 0x12)` sets window 42's flags to 0x12 and
window 7 (at index 1, flags 5) is untouched. -/
theorem C7_witness :
    ∃ w : NSWindow, stAB.windows[0]? = some w ∧ w.windowNumber = 42 ∧
      (setWindowCollectionBehavior stAB [(42 : Int), (18 : Int)]).2.windows[0]? =
        some { w with collectionBehavior := 18 } ∧
      ∀ j, j ≠ 0 →
        (setWindowCollectionBehavior stAB [(42 : Int), (18 : Int)]).2.windows[j]? =
          stAB.windows[j]? :=
  C7_frame_only_target_window stAB 42 18 0
    (registryWF_of_registry_nil stAB rfl) (by norm_num) (by norm_num) (by decide)

/-- C8: an id argument that is malformed (any integer, however negative or
large — it is truncated, not validated) or zero never makes the two-argument
call throw: the outcome is always an ordinary boolean, and whenever the
truncated id fails to resolve the call returns `false` with the state
untouched. -/
theorem C8_malformed_id_no_error (st : AppState) (a mask : Int) :
    (∃ r : Bool, (setWindowCollectionBehavior st [a, mask]).1 = .ok r) ∧
    (resolveWindow st (toUint32 a) = none →
      setWindowCollectionBehavior st [a, mask] = (.ok false, st)) := by
  constructor
  · rw [setWindowCollectionBehavior_two]
    cases resolveWindow st (toUint32 a) with
    | some i => exact ⟨true, rfl⟩
    | none => exact ⟨false, rfl⟩
  · intro h
    exact setWCB_two_none st a mask h

/-- Witness for C8: the zero identifier on the two-window scenario raises no
error and returns `false`. -/
theorem C8_witness :
    setWindowCollectionBehavior stAB [(0 : Int), (18 : Int)] = (.ok false, stAB) :=
  (C8_malformed_id_no_error stAB 0 18).2 (by decide)

/-- C9: `getNSWindowFromHandle` is read-only — for every input, the
window-server state after the call is the state before it; no window's
collection-behavior flags or any other window state changes. -/
theorem C9_decode_readonly (st : AppState) (args : List (List ObjPtr)) :
    (getNSWindowFromHandle st args).2 = st := by
  unfold getNSWindowFromHandle
  split
  · rfl
  · split
    · rfl
    · rfl
    · split <;> rfl

/-- C10: the behavior value actually applied to the resolved window is the
caller's second argument reduced modulo `2^32` (ECMAScript `ToUint32`, which
`Uint32Value()` performs) before the widening to the platform's
collection-behavior type: the flags written equal `b mod 2^32`. -/
theorem C10_behavior_truncated_mod_2_32 (st : AppState) (a b : Int) (i : Nat)
    (hwf : RegistryWF st) (hres : resolveWindow st (toUint32 a) = some i) :
    ∃ w : NSWindow, st.windows[i]? = some w ∧
      (setWindowCollectionBehavior st [a, b]).2.windows[i]? =
        some { w with collectionBehavior := toUint32 b } ∧
      (toUint32 b : Int) = b % 2 ^ 32 := by
  obtain ⟨w, hw, _⟩ := resolveWindow_spec st (toUint32 a) i hwf hres
  refine ⟨w, hw, ?_, toUint32_cast b⟩
  rw [setWCB_two_some st a b i hres]
  exact setBehaviorAt_getElem_self st.windows i (toUint32 b) w hw

/-- Witness for C10: passing behavior `-1` to window 42 writes flags
`2^32 - 1 = 4294967295`, i.e. `-1 mod 2^32`. -/
theorem C10_witness :
    ∃ w : NSWindow, stAB.windows[0]? = some w ∧
      (setWindowCollectionBehavior stAB [(42 : Int), (-1 : Int)]).2.windows[0]? =
        some { w with collectionBehavior := toUint32 (-1) } ∧
      (toUint32 (-1) : Int) = (-1) % 2 ^ 32 :=
  C10_behavior_truncated_mod_2_32 stAB 42 (-1) 0
    (registryWF_of_registry_nil stAB rfl) (by decide)
